import Mathlib

/-!
# heat.c : host-side driver for a USB thermal treatment device

A shallow embedding of `src/heat.c`.  Every libusb entry point the program
uses becomes a constructor of `Call`; the behaviour of the library and of the
device behind it is an arbitrary function `Transport` from the calls made so
far and the current call to a response.  Each C function is a Lean function
that threads the list of calls issued so far (the trace) and returns its C
return value next to the extended trace.

Diagnostic output (`printf`, `fprintf`, `hexdmp`, `print_status`) does not
influence control flow or any libusb call and is not part of the trace.
Automatic variables that C leaves uninitialised are explicit parameters.
-/

namespace Heat

/-! ## Constants (heat.c lines 14-20) -/

def VENDOR_ID : Nat := 0x32f9
def PRODUCT_ID : Nat := 0x0001

def BULK_IN_EP : Nat := 0x82
def BULK_OUT_EP : Nat := 0x02
def BUFFER_SIZE : Nat := 12

/-! ## The libusb boundary -/

/-- A `libusb_device_handle*`, as an abstract identifier. -/
abbrev Handle := Nat

/-- One call into libusb, with the arguments the program passes.  For a bulk
transfer `data` holds the bytes handed to the device: the first `length` bytes
of the buffer on an OUT endpoint, nothing on an IN endpoint. -/
inductive Call where
  | libusb_init
  | libusb_set_option
  | libusb_open_device_with_vid_pid (vid pid : Nat)
  | libusb_kernel_driver_active (devh : Handle) (if_num : Int)
  | libusb_detach_kernel_driver (devh : Handle) (if_num : Int)
  | libusb_get_configuration (devh : Handle)
  | libusb_set_configuration (devh : Handle) (configuration : Int)
  | libusb_claim_interface (devh : Handle) (if_num : Int)
  | libusb_release_interface (devh : Handle) (if_num : Int)
  | libusb_close (devh : Handle)
  | libusb_exit (ctx_is_null : Bool)
  | libusb_bulk_transfer (devh : Handle) (endpoint : Nat) (data : List Nat)
      (length : Nat) (timeout : Nat)
  deriving DecidableEq

/-- What a libusb call gives back: the `int` return code, the `int` written
through an out-parameter (`*transferred`, `*config`), the bytes a device
delivers on an IN transfer, and the handle of `libusb_open_device_with_vid_pid`
(`none` is the NULL pointer). -/
structure Resp where
  rc : Int
  out : Int
  data : List Nat
  devh : Option Handle

/-- A transport behaviour: the response to a call, given all earlier calls. -/
abbrev Transport := List Call → Call → Resp

/-- Issue one call: ask the transport and record the call in the trace. -/
def call (t : Transport) (tr : List Call) (c : Call) : Resp × List Call :=
  (t tr c, tr ++ [c])

/-- An uninitialised `uint8_t[n]`: `n` bytes of whatever the stack held. -/
def uninit (stack : List Nat) (n : Nat) : List Nat :=
  (List.range n).map (fun i => stack.getD i 0 % 256)

/-- Bytes received from the device overwrite the front of the buffer. -/
def store (buf : List Nat) (data : List Nat) : List Nat :=
  data.map (fun b => b % 256) ++ buf.drop data.length

/-- The call `libusb_bulk_transfer(devh, endpoint, buf, length, &transferred, timeout)`.
Bit 0x80 of the endpoint address selects the IN direction.  Returns the return
code, `transferred` and the buffer after the call. -/
def libusb_bulk_transfer (t : Transport) (tr : List Call) (devh : Handle)
    (endpoint : Nat) (buf : List Nat) (length : Nat) (timeout : Nat) :
    (Int × Int × List Nat) × List Call :=
  let is_out : Bool := endpoint &&& 0x80 == 0
  let c := Call.libusb_bulk_transfer devh endpoint
    (if is_out then buf.take length else []) length timeout
  let r := t tr c
  let buf1 := if is_out then buf
    else store buf (r.data.take (min r.out.toNat length))
  ((r.rc, r.out, buf1), tr ++ [c])

/-! ## start_treatment (heat.c lines 46-76) -/

def start_treatment (t : Transport) (tr : List Call) (devh : Handle)
    (temp : Nat) (time : Nat) : Int × List Call :=
  if temp > 3 then (1, tr)
  else if time > 2 then (2, tr)
  else
    let buf : List Nat := [0xff, 0x08, temp, time, 0, 0, 0, 0, 0, 0, 0, 0]
    let w := libusb_bulk_transfer t tr devh BULK_OUT_EP buf BUFFER_SIZE 1000
    let rc := w.1.1
    let tr := w.2
    if rc < 0 then
      let tr := (call t tr (Call.libusb_release_interface devh 0)).2
      let tr := (call t tr (Call.libusb_close devh)).2
      (1, tr)
    else (0, tr)

/-! ## status and request_status (heat.c lines 78-132) -/

structure status where
  header : Nat
  msgtype : Nat
  temp : Nat
  internal : Nat
  external : Nat
  pid : Nat
  chksum : Nat
  deriving DecidableEq

/-- Read `in_buffer[i]` of a `uint8_t` array. -/
def byteAt (in_buffer : List Nat) (i : Nat) : Nat := in_buffer.getD i 0 % 256

/-- The assignments of heat.c lines 123-129.  The two 16-bit fields are
`((uint16_t)hi << 8) | lo` stored into a `uint16_t`. -/
def decode_status (in_buffer : List Nat) : status :=
  { header := byteAt in_buffer 0
    msgtype := byteAt in_buffer 1
    temp := ((byteAt in_buffer 2 <<< 8) ||| byteAt in_buffer 3) % 65536
    internal := byteAt in_buffer 4
    external := byteAt in_buffer 5
    pid := ((byteAt in_buffer 6 <<< 8) ||| byteAt in_buffer 7) % 65536
    chksum := byteAt in_buffer 8 }

/-- The function `request_status(devh, out)`.  `stack` is what the uninitialised
`in_buffer` holds, `out` the contents of `*out` before the call; `*out` is
written only on the path that returns 0. -/
def request_status (t : Transport) (tr : List Call) (devh : Handle)
    (stack : List Nat) (out : status) : (Int × status) × List Call :=
  let buf : List Nat := [0xff, 0x02, 0x01, 0, 0, 0, 0, 0, 0, 0, 0, 0]
  let w := libusb_bulk_transfer t tr devh BULK_OUT_EP buf BUFFER_SIZE 1000
  let rc := w.1.1
  let tr := w.2
  if rc < 0 then
    let tr := (call t tr (Call.libusb_release_interface devh 0)).2
    let tr := (call t tr (Call.libusb_close devh)).2
    ((1, out), tr)
  else
    let in_buffer := uninit stack BUFFER_SIZE
    let r := libusb_bulk_transfer t tr devh BULK_IN_EP in_buffer BUFFER_SIZE 1500
    let rc := r.1.1
    let in_buffer := r.1.2.2
    let tr := r.2
    if rc < 0 then
      let tr := (call t tr (Call.libusb_release_interface devh 0)).2
      let tr := (call t tr (Call.libusb_close devh)).2
      ((2, out), tr)
    else
      ((0, decode_status in_buffer), tr)

/-! ## acquire_libusb_context and get_device (heat.c lines 134-217) -/

/-- The function `acquire_libusb_context()`: `none` stands for `exit(1)`. -/
def acquire_libusb_context (t : Transport) (tr : List Call) :
    Option Unit × List Call :=
  let r := call t tr Call.libusb_init
  if r.1.rc < 0 then (none, r.2)
  else (some (), (call t r.2 Call.libusb_set_option).2)

/-- Body of the first loop (lines 164-168) for one `if_num`. -/
def detach_step (t : Transport) (devh : Handle) (tr : List Call) (if_num : Nat) :
    List Call :=
  let a := call t tr (Call.libusb_kernel_driver_active devh if_num)
  if a.1.rc ≠ 0 then (call t a.2 (Call.libusb_detach_kernel_driver devh if_num)).2
  else a.2

/-- Body of the second loop (lines 204-213) for one `if_num`; the return code
of the claim is only printed. -/
def claim_step (t : Transport) (devh : Handle) (tr : List Call) (if_num : Nat) :
    List Call :=
  (call t tr (Call.libusb_claim_interface devh if_num)).2

/-- The error exit shared by lines 177-180 and 190-193. -/
def get_device_fail (t : Transport) (tr : List Call) (devh : Handle) : List Call :=
  let tr := (call t tr (Call.libusb_release_interface devh 0)).2
  let tr := (call t tr (Call.libusb_close devh)).2
  (call t tr (Call.libusb_exit false)).2

/-- The first loop (lines 164-168): for `if_num` 0 and 1, detach the kernel
driver when `libusb_kernel_driver_active` returns non-zero. -/
def detach_kernel_drivers (t : Transport) (tr : List Call) (devh : Handle) : List Call :=
  (List.range 2).foldl (detach_step t devh) tr

/-- Lines 204-216: claim interfaces 0 and 1, store the handle, return 0. -/
def get_device_claim (t : Transport) (tr : List Call) (devh : Handle) :
    (Int × Handle) × List Call :=
  ((0, devh), (List.range 2).foldl (claim_step t devh) tr)

/-- The function `get_device(ctx, devh_out)`.  `devh_out` is the contents of
`*devh_out` before the call; it is overwritten only on the path returning 0. -/
def get_device (t : Transport) (tr : List Call) (devh_out : Handle) :
    (Int × Handle) × List Call :=
  let o := call t tr (Call.libusb_open_device_with_vid_pid VENDOR_ID PRODUCT_ID)
  match o.1.devh with
  | none => ((1, devh_out), o.2)
  | some devh =>
    let tr := detach_kernel_drivers t o.2 devh
    let g := call t tr (Call.libusb_get_configuration devh)
    let conf := g.1.out
    if g.1.rc < 0 then ((1, devh_out), get_device_fail t g.2 devh)
    else if g.1.rc = 0 ∧ conf ≠ 2 then
      let s := call t g.2 (Call.libusb_set_configuration devh 2)
      if s.1.rc < 0 then ((1, devh_out), get_device_fail t s.2 devh)
      else get_device_claim t s.2 devh
    else get_device_claim t g.2 devh

/-! ## main (heat.c lines 230-277) -/

/-- The function `main(argc, argv)`: exit status and the trace of the whole
run.  `devh0`, `stack` and `sout` are the uninitialised `devh`, `in_buffer`
and `sout`.  The value returned by the protocol operation is assigned to `rc`
and not read again. -/
def main (t : Transport) (argc : Int) (devh0 : Handle) (stack : List Nat)
    (sout : status) : Int × List Call :=
  let a := acquire_libusb_context t []
  match a.1 with
  | none => (1, a.2)
  | some _ =>
    let d := get_device t a.2 devh0
    let devh := d.1.2
    if d.1.1 ≠ 0 then (1, d.2)
    else
      let p : Int × List Call :=
        if argc = 1 then (0, (request_status t d.2 devh stack sout).2)
        else if argc = 2 then (0, (start_treatment t d.2 devh 1 1).2)
        else if argc = 3 then (0, (start_treatment t d.2 devh 1 1).2)
        else (1, d.2)
      let tr := (call t p.2 (Call.libusb_release_interface devh 0)).2
      let tr := (call t tr (Call.libusb_close devh)).2
      let tr := (call t tr (Call.libusb_exit true)).2
      (p.1, tr)

/-! ## Observations on traces -/

/-- The calls a function added to the trace `tr` it started from. -/
def newCalls (tr out : List Call) : List Call := out.drop tr.length

def isBulk : Call → Bool
  | Call.libusb_bulk_transfer _ _ _ _ _ => true
  | _ => false

def isSetConfiguration : Call → Bool
  | Call.libusb_set_configuration _ _ => true
  | _ => false

def isClaim : Call → Bool
  | Call.libusb_claim_interface _ _ => true
  | _ => false

def isRelease : Call → Bool
  | Call.libusb_release_interface _ _ => true
  | _ => false

def isClose : Call → Bool
  | Call.libusb_close _ => true
  | _ => false

/-! ## A simulated device for concrete runs -/

/-- A transport that finds the device as handle 7, reports configuration
`conf`, answers `libusb_set_configuration` with `set_rc`, OUT transfers with
`out_rc`, and IN transfers with `in_rc` and the bytes `data`; every other call
returns 0. -/
def sim (out_rc in_rc conf set_rc : Int) (data : List Nat) : Transport :=
  fun _ c =>
    match c with
    | Call.libusb_open_device_with_vid_pid _ _ => ⟨0, 0, [], some 7⟩
    | Call.libusb_get_configuration _ => ⟨0, conf, [], none⟩
    | Call.libusb_set_configuration _ _ => ⟨set_rc, 0, [], none⟩
    | Call.libusb_bulk_transfer _ ep _ _ _ =>
      if ep &&& 0x80 == 0 then ⟨out_rc, 12, [], none⟩
      else ⟨in_rc, data.length, data, none⟩
    | _ => ⟨0, 0, [], none⟩

/-- The response bytes of the status exchange of scenario A. -/
def scenarioA : List Nat :=
  [0xFF, 0x02, 0x00, 0x96, 0x1E, 0x1F, 0x01, 0x2C, 0x00, 0x00, 0x00, 0x00]

/-- Some previous contents of a `status` variable. -/
def status0 : status := ⟨1, 1, 1, 1, 1, 1, 1⟩

/-- A device that answers the status query with three bytes only. -/
def shortSim : Transport := sim 0 0 2 0 [0xFF, 0x02, 0x00]

/-- A device that is found in configuration 2 and whose bulk write fails. -/
def writeFailSim : Transport := sim (-1) 0 2 0 scenarioA

/-- A device that is found in configuration 2, accepts the bulk write and
fails the bulk read. -/
def readFailSim : Transport := sim 0 (-7) 2 0 scenarioA

/-- The trace of `main` up to the protocol operation on the simulated device. -/
def openedTrace : List Call :=
  [Call.libusb_init, Call.libusb_set_option,
   Call.libusb_open_device_with_vid_pid 0x32f9 0x0001,
   Call.libusb_kernel_driver_active 7 0, Call.libusb_kernel_driver_active 7 1,
   Call.libusb_get_configuration 7,
   Call.libusb_claim_interface 7 0, Call.libusb_claim_interface 7 1]

/-! ## Basic lemmas -/

theorem newCalls_append (tr l : List Call) : newCalls tr (tr ++ l) = l := by
  simp [newCalls]

theorem newCalls_self (tr : List Call) : newCalls tr tr = [] := by
  simp [newCalls]

theorem be16 (hi lo : Nat) (hhi : hi < 256) (hlo : lo < 256) :
    ((hi <<< 8) ||| lo) % 65536 = hi * 256 + lo := by
  have h : 2 ^ 8 * hi + lo = 2 ^ 8 * hi ||| lo := Nat.mul_add_lt_is_or (by omega) hi
  rw [Nat.shiftLeft_eq, Nat.mul_comm, ← h]
  omega

theorem be16_split (v : Nat) (hv : v < 65536) :
    ((((v / 256) % 256) <<< 8) ||| ((v % 256) % 256)) % 65536 = v := by
  rw [be16 _ _ (Nat.mod_lt _ (by decide)) (Nat.mod_lt _ (by decide))]
  omega

theorem bulk_out (t : Transport) (tr : List Call) (devh : Handle) (buf : List Nat)
    (length timeout : Nat) :
    libusb_bulk_transfer t tr devh BULK_OUT_EP buf length timeout
      = (((t tr (Call.libusb_bulk_transfer devh 0x02 (buf.take length) length timeout)).rc,
          (t tr (Call.libusb_bulk_transfer devh 0x02 (buf.take length) length timeout)).out,
          buf),
         tr ++ [Call.libusb_bulk_transfer devh 0x02 (buf.take length) length timeout]) := by
  have e : ((2 : Nat) &&& 0x80 == 0) = true := by decide
  simp [libusb_bulk_transfer, BULK_OUT_EP, e]

theorem bulk_in (t : Transport) (tr : List Call) (devh : Handle) (buf : List Nat)
    (length timeout : Nat) :
    libusb_bulk_transfer t tr devh BULK_IN_EP buf length timeout
      = (((t tr (Call.libusb_bulk_transfer devh 0x82 [] length timeout)).rc,
          (t tr (Call.libusb_bulk_transfer devh 0x82 [] length timeout)).out,
          store buf ((t tr (Call.libusb_bulk_transfer devh 0x82 [] length timeout)).data.take
            (min (t tr (Call.libusb_bulk_transfer devh 0x82 [] length timeout)).out.toNat
              length))),
         tr ++ [Call.libusb_bulk_transfer devh 0x82 [] length timeout]) := by
  have e : ((0x82 : Nat) &&& 0x80 == 0) = false := by decide
  simp [libusb_bulk_transfer, BULK_IN_EP, e]

/-! ## start_treatment -/

/-- C1: for temp in 0..3 and time in 0..2, `start_treatment` issues exactly one
bulk transfer, a write of the 12-byte frame `[0xFF, 0x08, temp, time, 0, ..., 0]`
to endpoint 0x02, and returns 0 with nothing else added to the trace when that
transfer returns a non-negative result. -/
theorem start_treatment_frame (t : Transport) (tr : List Call) (devh : Handle)
    (temp time : Nat) (htemp : temp ≤ 3) (htime : time ≤ 2) :
    (newCalls tr (start_treatment t tr devh temp time).2).filter isBulk
        = [Call.libusb_bulk_transfer devh 0x02
            [0xFF, 0x08, temp, time, 0, 0, 0, 0, 0, 0, 0, 0] 12 1000]
      ∧ (0 ≤ (t tr (Call.libusb_bulk_transfer devh 0x02
            [0xFF, 0x08, temp, time, 0, 0, 0, 0, 0, 0, 0, 0] 12 1000)).rc →
          start_treatment t tr devh temp time
            = (0, tr ++ [Call.libusb_bulk_transfer devh 0x02
                [0xFF, 0x08, temp, time, 0, 0, 0, 0, 0, 0, 0, 0] 12 1000])) := by
  have h1 : ¬ temp > 3 := by omega
  have h2 : ¬ time > 2 := by omega
  simp only [start_treatment, h1, h2, if_false, bulk_out, call, BUFFER_SIZE]
  constructor
  · split <;> simp [newCalls, isBulk]
  · intro h
    have h3 : ¬ (t tr (Call.libusb_bulk_transfer devh 0x02
            [0xFF, 0x08, temp, time, 0, 0, 0, 0, 0, 0, 0, 0] 12 1000)).rc < 0 := by omega
    simp [h3]

theorem start_treatment_frame_witness :
    (newCalls [] (start_treatment (sim 0 0 2 0 scenarioA) [] 7 2 1).2).filter isBulk
        = [Call.libusb_bulk_transfer 7 0x02 [0xFF, 0x08, 2, 1, 0, 0, 0, 0, 0, 0, 0, 0] 12 1000]
      ∧ (0 ≤ (sim 0 0 2 0 scenarioA [] (Call.libusb_bulk_transfer 7 0x02
            [0xFF, 0x08, 2, 1, 0, 0, 0, 0, 0, 0, 0, 0] 12 1000)).rc →
          start_treatment (sim 0 0 2 0 scenarioA) [] 7 2 1
            = (0, [] ++ [Call.libusb_bulk_transfer 7 0x02
                [0xFF, 0x08, 2, 1, 0, 0, 0, 0, 0, 0, 0, 0] 12 1000])) :=
  start_treatment_frame (sim 0 0 2 0 scenarioA) [] 7 2 1 (by decide) (by decide)

/-- C2: for 8-bit temp and time with temp > 3 or time > 2, `start_treatment`
returns a non-zero code and adds no call to the trace: no bulk transfer, no
interface release, no close. -/
theorem start_treatment_rejects (t : Transport) (tr : List Call) (devh : Handle)
    (temp time : Nat) (_htemp8 : temp < 256) (_htime8 : time < 256)
    (h : temp > 3 ∨ time > 2) :
    (start_treatment t tr devh temp time).1 ≠ 0
      ∧ (start_treatment t tr devh temp time).2 = tr
      ∧ newCalls tr (start_treatment t tr devh temp time).2 = [] := by
  unfold start_treatment
  by_cases h1 : temp > 3
  · simp [h1, newCalls]
  · have h2 : time > 2 := by omega
    simp [h1, h2, newCalls]

theorem start_treatment_rejects_witness :
    (start_treatment (sim 0 0 2 0 scenarioA) [] 7 4 0).1 ≠ 0
      ∧ (start_treatment (sim 0 0 2 0 scenarioA) [] 7 4 0).2 = []
      ∧ newCalls [] (start_treatment (sim 0 0 2 0 scenarioA) [] 7 4 0).2 = [] :=
  start_treatment_rejects (sim 0 0 2 0 scenarioA) [] 7 4 0 (by decide) (by decide)
    (Or.inl (by decide))

/-! ## request_status -/

theorem decode_status_build (header msgtype temp internal external pid chksum r9 r10 r11 : Nat)
    (hh : header < 256) (hm : msgtype < 256) (ht : temp < 65536) (hi : internal < 256)
    (he : external < 256) (hp : pid < 65536) (hc : chksum < 256) :
    decode_status [header, msgtype, temp / 256, temp % 256, internal, external,
        pid / 256, pid % 256, chksum, r9, r10, r11]
      = ⟨header, msgtype, temp, internal, external, pid, chksum⟩ := by
  simp only [decode_status, byteAt, List.getD_cons_zero, List.getD_cons_succ]
  rw [be16_split temp ht, be16_split pid hp, Nat.mod_eq_of_lt hh, Nat.mod_eq_of_lt hm,
    Nat.mod_eq_of_lt hi, Nat.mod_eq_of_lt he, Nat.mod_eq_of_lt hc]

theorem decode_status_store (stack data : List Nat) (hlen : data.length = 12) :
    decode_status (store (uninit stack 12) data) = decode_status data := by
  match data, hlen with
  | [b0, b1, b2, b3, b4, b5, b6, b7, b8, b9, b10, b11], _ =>
    simp [decode_status, byteAt, store]

/-- C3: decoding as `request_status` does is a left inverse of building a
response: the buffer `[header, msgtype, temp/256, temp%256, internal, external,
pid/256, pid%256, chksum, r9, r10, r11]` decodes to exactly the seven field
values, for all 8-bit header, msgtype, internal, external, chksum, all 16-bit
temp and pid and any reserved bytes; and `request_status` delivers that status
with return code 0 whenever both transfers succeed and the device supplies
those 12 bytes. -/
theorem decode_status_left_inverse
    (header msgtype temp internal external pid chksum r9 r10 r11 : Nat)
    (hh : header < 256) (hm : msgtype < 256) (ht : temp < 65536) (hi : internal < 256)
    (he : external < 256) (hp : pid < 65536) (hc : chksum < 256) :
    decode_status [header, msgtype, temp / 256, temp % 256, internal, external,
        pid / 256, pid % 256, chksum, r9, r10, r11]
      = ⟨header, msgtype, temp, internal, external, pid, chksum⟩
    ∧ ∀ (t : Transport) (tr : List Call) (devh : Handle) (stack : List Nat) (out : status),
        0 ≤ (t tr (Call.libusb_bulk_transfer devh 0x02
              [0xFF, 0x02, 0x01, 0, 0, 0, 0, 0, 0, 0, 0, 0] 12 1000)).rc →
        0 ≤ (t (tr ++ [Call.libusb_bulk_transfer devh 0x02
              [0xFF, 0x02, 0x01, 0, 0, 0, 0, 0, 0, 0, 0, 0] 12 1000])
              (Call.libusb_bulk_transfer devh 0x82 [] 12 1500)).rc →
        (t (tr ++ [Call.libusb_bulk_transfer devh 0x02
              [0xFF, 0x02, 0x01, 0, 0, 0, 0, 0, 0, 0, 0, 0] 12 1000])
              (Call.libusb_bulk_transfer devh 0x82 [] 12 1500)).out = 12 →
        (t (tr ++ [Call.libusb_bulk_transfer devh 0x02
              [0xFF, 0x02, 0x01, 0, 0, 0, 0, 0, 0, 0, 0, 0] 12 1000])
              (Call.libusb_bulk_transfer devh 0x82 [] 12 1500)).data
            = [header, msgtype, temp / 256, temp % 256, internal, external,
                pid / 256, pid % 256, chksum, r9, r10, r11] →
        (request_status t tr devh stack out).1
          = (0, ⟨header, msgtype, temp, internal, external, pid, chksum⟩) := by
  refine ⟨decode_status_build header msgtype temp internal external pid chksum r9 r10 r11
    hh hm ht hi he hp hc, ?_⟩
  intro t tr devh stack out hw hr hout hdata
  have hw1 : ¬ (t tr (Call.libusb_bulk_transfer devh 0x02
              [0xFF, 0x02, 0x01, 0, 0, 0, 0, 0, 0, 0, 0, 0] 12 1000)).rc < 0 := by omega
  have hr1 : ¬ (t (tr ++ [Call.libusb_bulk_transfer devh 0x02
              [0xFF, 0x02, 0x01, 0, 0, 0, 0, 0, 0, 0, 0, 0] 12 1000])
              (Call.libusb_bulk_transfer devh 0x82 [] 12 1500)).rc < 0 := by omega
  simp only [request_status, bulk_out, bulk_in, BUFFER_SIZE, List.take, hw1, hr1, if_false,
    hout, hdata]
  rw [decode_status_store stack [header, msgtype, temp / 256, temp % 256, internal, external,
      pid / 256, pid % 256, chksum, r9, r10, r11] rfl,
    decode_status_build header msgtype temp internal external pid chksum r9 r10 r11
      hh hm ht hi he hp hc]

theorem decode_status_left_inverse_witness :
    decode_status [0xFF, 0x02, 0x00, 0x96, 0x1E, 0x1F, 0x01, 0x2C, 0x00, 0x00, 0x00, 0x00]
      = ⟨0xFF, 0x02, 150, 0x1E, 0x1F, 300, 0x00⟩
    ∧ (request_status (sim 0 0 2 0 scenarioA) [] 7 [] status0).1
      = (0, ⟨0xFF, 0x02, 150, 0x1E, 0x1F, 300, 0x00⟩) :=
  ⟨(decode_status_left_inverse 0xFF 0x02 150 0x1E 0x1F 300 0x00 0 0 0
      (by decide) (by decide) (by decide) (by decide) (by decide) (by decide) (by decide)).1,
   (decode_status_left_inverse 0xFF 0x02 150 0x1E 0x1F 300 0x00 0 0 0
      (by decide) (by decide) (by decide) (by decide) (by decide) (by decide) (by decide)).2
      (sim 0 0 2 0 scenarioA) [] 7 [] status0 (by decide) (by decide) (by decide) (by decide)⟩

/-- C4: for every transport, the bulk transfers `request_status` issues are one
write of `[0xFF, 0x02, 0x01, 0, ..., 0]` (12 bytes) to endpoint 0x02 with timeout
1000, followed exactly when that write returns a non-negative result by one read of
up to 12 bytes from endpoint 0x82 with timeout 1500; the return code is 1 when
the write fails (no read is issued), 2 when the read fails, 0 otherwise, and no
transfer is repeated. -/
theorem request_status_transfers (t : Transport) (tr : List Call) (devh : Handle)
    (stack : List Nat) (out : status) :
    (newCalls tr (request_status t tr devh stack out).2).filter isBulk
        = (if (t tr (Call.libusb_bulk_transfer devh 0x02
                [0xFF, 0x02, 0x01, 0, 0, 0, 0, 0, 0, 0, 0, 0] 12 1000)).rc < 0
           then [Call.libusb_bulk_transfer devh 0x02
                  [0xFF, 0x02, 0x01, 0, 0, 0, 0, 0, 0, 0, 0, 0] 12 1000]
           else [Call.libusb_bulk_transfer devh 0x02
                  [0xFF, 0x02, 0x01, 0, 0, 0, 0, 0, 0, 0, 0, 0] 12 1000,
                 Call.libusb_bulk_transfer devh 0x82 [] 12 1500])
      ∧ (request_status t tr devh stack out).1.1
        = (if (t tr (Call.libusb_bulk_transfer devh 0x02
                [0xFF, 0x02, 0x01, 0, 0, 0, 0, 0, 0, 0, 0, 0] 12 1000)).rc < 0 then 1
           else if (t (tr ++ [Call.libusb_bulk_transfer devh 0x02
                [0xFF, 0x02, 0x01, 0, 0, 0, 0, 0, 0, 0, 0, 0] 12 1000])
                (Call.libusb_bulk_transfer devh 0x82 [] 12 1500)).rc < 0 then 2
           else 0) := by
  simp only [request_status, bulk_out, bulk_in, BUFFER_SIZE, List.take, call]
  constructor
  · split
    · simp [newCalls, isBulk]
    · split <;> simp [newCalls, isBulk]
  · split
    · rfl
    · split <;> rfl

/-! ### Short responses -/

/-- C5, as stated, fails: the read succeeds with `bytes_read = 3` and
`request_status` still returns 0 and overwrites `*out` with a decoded status. -/
theorem request_status_short_counterexample :
    (shortSim [Call.libusb_bulk_transfer 7 0x02 [0xFF, 0x02, 0x01, 0, 0, 0, 0, 0, 0, 0, 0, 0]
        12 1000] (Call.libusb_bulk_transfer 7 0x82 [] 12 1500)).out = 3
      ∧ (request_status shortSim [] 7 [] status0).1 = (0, ⟨0xFF, 0x02, 0, 0, 0, 0, 0⟩)
      ∧ ¬ ((request_status shortSim [] 7 [] status0).1.1 ≠ 0
            ∧ (request_status shortSim [] 7 [] status0).1.2 = status0) := by
  decide

/-- C5 amended: `request_status` has no length check.  When both transfers
return a non-negative result and the read reports fewer than 12 bytes, it
returns 0 and delivers the status decoded from the 12-byte `in_buffer`, whose
front holds the bytes received and whose remainder is what the buffer held
before. -/
theorem request_status_short (t : Transport) (tr : List Call) (devh : Handle)
    (stack : List Nat) (out : status)
    (hw : 0 ≤ (t tr (Call.libusb_bulk_transfer devh 0x02
              [0xFF, 0x02, 0x01, 0, 0, 0, 0, 0, 0, 0, 0, 0] 12 1000)).rc)
    (hr : 0 ≤ (t (tr ++ [Call.libusb_bulk_transfer devh 0x02
              [0xFF, 0x02, 0x01, 0, 0, 0, 0, 0, 0, 0, 0, 0] 12 1000])
              (Call.libusb_bulk_transfer devh 0x82 [] 12 1500)).rc)
    (hshort : (t (tr ++ [Call.libusb_bulk_transfer devh 0x02
              [0xFF, 0x02, 0x01, 0, 0, 0, 0, 0, 0, 0, 0, 0] 12 1000])
              (Call.libusb_bulk_transfer devh 0x82 [] 12 1500)).out < 12) :
    (request_status t tr devh stack out).1
      = (0, decode_status (store (uninit stack 12)
          ((t (tr ++ [Call.libusb_bulk_transfer devh 0x02
              [0xFF, 0x02, 0x01, 0, 0, 0, 0, 0, 0, 0, 0, 0] 12 1000])
              (Call.libusb_bulk_transfer devh 0x82 [] 12 1500)).data.take
            (t (tr ++ [Call.libusb_bulk_transfer devh 0x02
              [0xFF, 0x02, 0x01, 0, 0, 0, 0, 0, 0, 0, 0, 0] 12 1000])
              (Call.libusb_bulk_transfer devh 0x82 [] 12 1500)).out.toNat))) := by
  have hw1 : ¬ (t tr (Call.libusb_bulk_transfer devh 0x02
              [0xFF, 0x02, 0x01, 0, 0, 0, 0, 0, 0, 0, 0, 0] 12 1000)).rc < 0 := by omega
  have hr1 : ¬ (t (tr ++ [Call.libusb_bulk_transfer devh 0x02
              [0xFF, 0x02, 0x01, 0, 0, 0, 0, 0, 0, 0, 0, 0] 12 1000])
              (Call.libusb_bulk_transfer devh 0x82 [] 12 1500)).rc < 0 := by omega
  have hmin : min (t (tr ++ [Call.libusb_bulk_transfer devh 0x02
              [0xFF, 0x02, 0x01, 0, 0, 0, 0, 0, 0, 0, 0, 0] 12 1000])
              (Call.libusb_bulk_transfer devh 0x82 [] 12 1500)).out.toNat 12
      = (t (tr ++ [Call.libusb_bulk_transfer devh 0x02
              [0xFF, 0x02, 0x01, 0, 0, 0, 0, 0, 0, 0, 0, 0] 12 1000])
              (Call.libusb_bulk_transfer devh 0x82 [] 12 1500)).out.toNat := by
    omega
  simp only [request_status, bulk_out, bulk_in, BUFFER_SIZE, List.take, hw1, hr1, if_false,
    hmin]

theorem request_status_short_witness :
    (request_status shortSim [] 7 [9, 9, 9, 9, 9, 9, 9, 9, 9, 9, 9, 9] status0).1
      = (0, decode_status (store (uninit [9, 9, 9, 9, 9, 9, 9, 9, 9, 9, 9, 9] 12)
          ((shortSim ([] ++ [Call.libusb_bulk_transfer 7 0x02
              [0xFF, 0x02, 0x01, 0, 0, 0, 0, 0, 0, 0, 0, 0] 12 1000])
              (Call.libusb_bulk_transfer 7 0x82 [] 12 1500)).data.take
            (shortSim ([] ++ [Call.libusb_bulk_transfer 7 0x02
              [0xFF, 0x02, 0x01, 0, 0, 0, 0, 0, 0, 0, 0, 0] 12 1000])
              (Call.libusb_bulk_transfer 7 0x82 [] 12 1500)).out.toNat))) :=
  request_status_short shortSim [] 7 [9, 9, 9, 9, 9, 9, 9, 9, 9, 9, 9, 9] status0
    (by decide) (by decide) (by decide)

/-! ### A failing write in start_treatment -/

/-- C6, as stated, fails: with temp = 2, time = 1 and a write that returns -1,
`start_treatment` itself releases interface 0 and closes the handle. -/
theorem start_treatment_write_failure_counterexample :
    start_treatment (sim (-1) 0 2 0 []) [] 7 2 1
      = (1, [Call.libusb_bulk_transfer 7 0x02 [0xFF, 0x08, 2, 1, 0, 0, 0, 0, 0, 0, 0, 0] 12 1000,
             Call.libusb_release_interface 7 0, Call.libusb_close 7])
      ∧ ¬ ((newCalls [] (start_treatment (sim (-1) 0 2 0 []) [] 7 2 1).2).filter isRelease = []
            ∧ (newCalls [] (start_treatment (sim (-1) 0 2 0 []) [] 7 2 1).2).filter isClose
                = []) := by
  decide

/-- C6 amended: for valid arguments and a bulk write that returns a negative
result, `start_treatment` returns 1 and, after the single write, releases
interface 0 and closes the device handle itself. -/
theorem start_treatment_write_failure (t : Transport) (tr : List Call) (devh : Handle)
    (temp time : Nat) (htemp : temp ≤ 3) (htime : time ≤ 2)
    (hw : (t tr (Call.libusb_bulk_transfer devh 0x02
            [0xFF, 0x08, temp, time, 0, 0, 0, 0, 0, 0, 0, 0] 12 1000)).rc < 0) :
    start_treatment t tr devh temp time
      = (1, tr ++ [Call.libusb_bulk_transfer devh 0x02
                    [0xFF, 0x08, temp, time, 0, 0, 0, 0, 0, 0, 0, 0] 12 1000,
                   Call.libusb_release_interface devh 0, Call.libusb_close devh]) := by
  have h1 : ¬ temp > 3 := by omega
  have h2 : ¬ time > 2 := by omega
  simp [start_treatment, h1, h2, bulk_out, call, BUFFER_SIZE, hw]

theorem start_treatment_write_failure_witness :
    start_treatment (sim (-1) 0 2 0 []) [] 7 2 1
      = (1, [] ++ [Call.libusb_bulk_transfer 7 0x02
                    [0xFF, 0x08, 2, 1, 0, 0, 0, 0, 0, 0, 0, 0] 12 1000,
                   Call.libusb_release_interface 7 0, Call.libusb_close 7]) :=
  start_treatment_write_failure (sim (-1) 0 2 0 []) [] 7 2 1 (by decide) (by decide)
    (by decide)

/-! ## get_device -/

theorem detach_kernel_drivers_spec (t : Transport) (tr : List Call) (devh : Handle) :
    ∃ l, detach_kernel_drivers t tr devh = tr ++ l
      ∧ l.filter isSetConfiguration = [] ∧ l.filter isClaim = [] := by
  have e : List.range 2 = [0, 1] := rfl
  simp only [detach_kernel_drivers, e, List.foldl, detach_step, call]
  split <;> split <;> simp only [List.append_assoc] <;>
    exact ⟨_, rfl, by simp [isSetConfiguration], by simp [isClaim]⟩

theorem get_device_claim_spec (t : Transport) (tr : List Call) (devh : Handle) :
    get_device_claim t tr devh
      = ((0, devh), tr ++ [Call.libusb_claim_interface devh 0,
                           Call.libusb_claim_interface devh 1]) := by
  have e : List.range 2 = [0, 1] := rfl
  simp [get_device_claim, e, claim_step, call]

theorem get_device_fail_spec (t : Transport) (tr : List Call) (devh : Handle) :
    get_device_fail t tr devh
      = tr ++ [Call.libusb_release_interface devh 0, Call.libusb_close devh,
               Call.libusb_exit false] := by
  simp [get_device_fail, call]

/-- C7: in `get_device`, for a found device whose configuration was read
successfully (`libusb_get_configuration` returned 0), `libusb_set_configuration`
is called, once and with value 2, exactly when the configuration read differs
from 2 and not at all when it is 2; when that call returns a negative result
`get_device` returns 1, leaves `*devh_out` unwritten and claims no interface. -/
theorem get_device_configuration (t : Transport) (tr : List Call) (devh_out devh : Handle)
    (hfound : (t tr (Call.libusb_open_device_with_vid_pid VENDOR_ID PRODUCT_ID)).devh
      = some devh)
    (hget : (t (detach_kernel_drivers t
        (tr ++ [Call.libusb_open_device_with_vid_pid VENDOR_ID PRODUCT_ID]) devh)
        (Call.libusb_get_configuration devh)).rc = 0) :
    (newCalls tr (get_device t tr devh_out).2).filter isSetConfiguration
        = (if (t (detach_kernel_drivers t
              (tr ++ [Call.libusb_open_device_with_vid_pid VENDOR_ID PRODUCT_ID]) devh)
              (Call.libusb_get_configuration devh)).out ≠ 2
           then [Call.libusb_set_configuration devh 2] else [])
      ∧ ((t (detach_kernel_drivers t
              (tr ++ [Call.libusb_open_device_with_vid_pid VENDOR_ID PRODUCT_ID]) devh)
              (Call.libusb_get_configuration devh)).out ≠ 2 →
          (t (detach_kernel_drivers t
              (tr ++ [Call.libusb_open_device_with_vid_pid VENDOR_ID PRODUCT_ID]) devh
              ++ [Call.libusb_get_configuration devh])
              (Call.libusb_set_configuration devh 2)).rc < 0 →
          (get_device t tr devh_out).1 = (1, devh_out)
            ∧ (newCalls tr (get_device t tr devh_out).2).filter isClaim = []) := by
  obtain ⟨l, hl, hs, hc⟩ := detach_kernel_drivers_spec t
    (tr ++ [Call.libusb_open_device_with_vid_pid VENDOR_ID PRODUCT_ID]) devh
  have hget1 : ¬ (t (detach_kernel_drivers t
        (tr ++ [Call.libusb_open_device_with_vid_pid VENDOR_ID PRODUCT_ID]) devh)
        (Call.libusb_get_configuration devh)).rc < 0 := by omega
  simp only [get_device, call, hfound, hget, hget1, if_false, true_and,
    get_device_claim_spec, get_device_fail_spec]
  by_cases hconf : (t (detach_kernel_drivers t
        (tr ++ [Call.libusb_open_device_with_vid_pid VENDOR_ID PRODUCT_ID]) devh)
        (Call.libusb_get_configuration devh)).out = 2
  · simp only [hconf, ne_eq, not_true_eq_false, if_false, false_implies, and_true]
    simp [hl, newCalls, List.filter_append, hs, isSetConfiguration]
  · simp only [hconf, ne_eq, not_false_eq_true, if_true, true_implies]
    by_cases hset : (t (detach_kernel_drivers t
              (tr ++ [Call.libusb_open_device_with_vid_pid VENDOR_ID PRODUCT_ID]) devh
              ++ [Call.libusb_get_configuration devh])
              (Call.libusb_set_configuration devh 2)).rc < 0
    · simp only [hset, if_true, true_implies, true_and]
      simp [hl, newCalls, List.filter_append, hs, hc, isSetConfiguration, isClaim]
    · simp only [hset, if_false, false_implies, and_true]
      simp [hl, newCalls, List.filter_append, hs, isSetConfiguration]

theorem get_device_configuration_witness :
    (newCalls [] (get_device (sim 0 0 1 (-1) []) [] 0).2).filter isSetConfiguration
        = (if (sim 0 0 1 (-1) [] (detach_kernel_drivers (sim 0 0 1 (-1) [])
              ([] ++ [Call.libusb_open_device_with_vid_pid VENDOR_ID PRODUCT_ID]) 7)
              (Call.libusb_get_configuration 7)).out ≠ 2
           then [Call.libusb_set_configuration 7 2] else [])
      ∧ ((sim 0 0 1 (-1) [] (detach_kernel_drivers (sim 0 0 1 (-1) [])
              ([] ++ [Call.libusb_open_device_with_vid_pid VENDOR_ID PRODUCT_ID]) 7)
              (Call.libusb_get_configuration 7)).out ≠ 2 →
          (sim 0 0 1 (-1) [] (detach_kernel_drivers (sim 0 0 1 (-1) [])
              ([] ++ [Call.libusb_open_device_with_vid_pid VENDOR_ID PRODUCT_ID]) 7
              ++ [Call.libusb_get_configuration 7])
              (Call.libusb_set_configuration 7 2)).rc < 0 →
          (get_device (sim 0 0 1 (-1) []) [] 0).1 = (1, 0)
            ∧ (newCalls [] (get_device (sim 0 0 1 (-1) []) [] 0).2).filter isClaim = []) :=
  get_device_configuration (sim 0 0 1 (-1) []) [] 0 7 (by decide) (by decide)

/-- C8: whenever the device is found and the configuration step succeeds (the
configuration is read with a non-negative result and, if it has to be set, the
set call returns a non-negative result), `get_device` returns 0 with the handle
and its claim attempts are exactly interface 0 then interface 1, as the last two
calls it makes, whatever the kernel-driver calls and the two claim calls
return. -/
theorem get_device_permissive (t : Transport) (tr : List Call) (devh_out devh : Handle)
    (hfound : (t tr (Call.libusb_open_device_with_vid_pid VENDOR_ID PRODUCT_ID)).devh
      = some devh)
    (hget : 0 ≤ (t (detach_kernel_drivers t
        (tr ++ [Call.libusb_open_device_with_vid_pid VENDOR_ID PRODUCT_ID]) devh)
        (Call.libusb_get_configuration devh)).rc)
    (hset : (t (detach_kernel_drivers t
          (tr ++ [Call.libusb_open_device_with_vid_pid VENDOR_ID PRODUCT_ID]) devh)
          (Call.libusb_get_configuration devh)).rc = 0 →
        (t (detach_kernel_drivers t
          (tr ++ [Call.libusb_open_device_with_vid_pid VENDOR_ID PRODUCT_ID]) devh)
          (Call.libusb_get_configuration devh)).out ≠ 2 →
        0 ≤ (t (detach_kernel_drivers t
              (tr ++ [Call.libusb_open_device_with_vid_pid VENDOR_ID PRODUCT_ID]) devh
              ++ [Call.libusb_get_configuration devh])
              (Call.libusb_set_configuration devh 2)).rc) :
    (get_device t tr devh_out).1 = (0, devh)
      ∧ (newCalls tr (get_device t tr devh_out).2).filter isClaim
          = [Call.libusb_claim_interface devh 0, Call.libusb_claim_interface devh 1]
      ∧ [Call.libusb_claim_interface devh 0, Call.libusb_claim_interface devh 1]
          <:+ (get_device t tr devh_out).2 := by
  obtain ⟨l, hl, _, hc⟩ := detach_kernel_drivers_spec t
    (tr ++ [Call.libusb_open_device_with_vid_pid VENDOR_ID PRODUCT_ID]) devh
  have hget1 : ¬ (t (detach_kernel_drivers t
        (tr ++ [Call.libusb_open_device_with_vid_pid VENDOR_ID PRODUCT_ID]) devh)
        (Call.libusb_get_configuration devh)).rc < 0 := by omega
  simp only [get_device, call, hfound, hget1, if_false, get_device_claim_spec]
  split
  · rename_i h
    have hset1 := hset h.1 h.2
    have hset2 : ¬ (t (detach_kernel_drivers t
              (tr ++ [Call.libusb_open_device_with_vid_pid VENDOR_ID PRODUCT_ID]) devh
              ++ [Call.libusb_get_configuration devh])
              (Call.libusb_set_configuration devh 2)).rc < 0 := by omega
    simp only [hset2, if_false]
    refine ⟨trivial, ?_, List.suffix_append _ _⟩
    simp [hl, newCalls, List.filter_append, hc, isClaim]
  · refine ⟨rfl, ?_, List.suffix_append _ _⟩
    simp [hl, newCalls, List.filter_append, hc, isClaim]

theorem get_device_permissive_witness :
    (get_device (sim 0 0 1 0 []) [] 0).1 = (0, 7)
      ∧ (newCalls [] (get_device (sim 0 0 1 0 []) [] 0).2).filter isClaim
          = [Call.libusb_claim_interface 7 0, Call.libusb_claim_interface 7 1]
      ∧ [Call.libusb_claim_interface 7 0, Call.libusb_claim_interface 7 1]
          <:+ (get_device (sim 0 0 1 0 []) [] 0).2 :=
  get_device_permissive (sim 0 0 1 0 []) [] 0 7 (by decide) (by decide)
    (fun _ _ => by decide)

/-! ## main -/

/-- The exit status of `main` once the device is open: 0 for `argc` 1, 2 or 3
and 1 otherwise, whatever the protocol operation returned. -/
theorem main_exit_code (t : Transport) (argc : Int) (devh0 : Handle) (stack : List Nat)
    (sout : status) (hinit : 0 ≤ (t [] Call.libusb_init).rc)
    (hdev : (get_device t (acquire_libusb_context t []).2 devh0).1.1 = 0) :
    (main t argc devh0 stack sout).1 = (if argc = 1 ∨ argc = 2 ∨ argc = 3 then 0 else 1) := by
  have hinit1 : ¬ (t [] Call.libusb_init).rc < 0 := by omega
  have ha : (acquire_libusb_context t []).1 = some () := by
    simp [acquire_libusb_context, call, hinit1]
  unfold main
  simp only [ha, hdev, ne_eq, not_true_eq_false, if_false]
  by_cases h1 : argc = 1
  · simp [h1]
  · by_cases h2 : argc = 2
    · simp [h2]
    · by_cases h3 : argc = 3
      · simp [h3]
      · simp [h1, h2, h3]

/-- C9 (the code departs from the claim): with the device open, `request_status`
returns 1 when the bulk write fails and 2 when the bulk read fails, and
`start_treatment` returns 1 when the bulk write fails, yet `main` exits with
status 0 in all three runs. -/
theorem main_exit_code_on_transfer_failure :
    (get_device writeFailSim (acquire_libusb_context writeFailSim []).2 0)
        = ((0, 7), openedTrace)
      ∧ (request_status writeFailSim openedTrace 7 [] status0).1.1 = 1
      ∧ (main writeFailSim 1 0 [] status0).1 = 0
      ∧ (request_status readFailSim openedTrace 7 [] status0).1.1 = 2
      ∧ (main readFailSim 1 0 [] status0).1 = 0
      ∧ (start_treatment writeFailSim openedTrace 7 1 1).1 = 1
      ∧ (main writeFailSim 2 0 [] status0).1 = 0
      ∧ (main writeFailSim 3 0 [] status0).1 = 0 := by
  decide

/-- C10 (the code departs from the claim): when the bulk write of
`request_status` fails, the run of `main` releases interface 0 twice and closes
the handle twice: once in `request_status` and once more at the end of `main`. -/
theorem main_double_close :
    (main writeFailSim 1 0 [] status0).2
        = openedTrace ++
          [Call.libusb_bulk_transfer 7 0x02 [0xFF, 0x02, 0x01, 0, 0, 0, 0, 0, 0, 0, 0, 0] 12 1000,
           Call.libusb_release_interface 7 0, Call.libusb_close 7,
           Call.libusb_release_interface 7 0, Call.libusb_close 7,
           Call.libusb_exit true]
      ∧ ((main writeFailSim 1 0 [] status0).2.filter isClose).length = 2
      ∧ ((main writeFailSim 1 0 [] status0).2.filter isRelease).length = 2
      ∧ ((main readFailSim 1 0 [] status0).2.filter isClose).length = 2
      ∧ ((main writeFailSim 2 0 [] status0).2.filter isClose).length = 2
      ∧ ((main (sim 0 0 2 0 scenarioA) 1 0 [] status0).2.filter isClose).length = 1 := by
  decide

end Heat
